import Mathlib

/-!
Shallow embedding of the `streaming_bot` session orchestrator
(`src/streaming_bot/stream_manager.py` and `src/streaming_bot/models.py`).

Modelling conventions:
* Python `datetime` values are represented by their ISO-8601 rendering, so
  `datetime.isoformat` is the identity on the model; each call to
  `datetime.utcnow()` inside an operation is an external input and is passed
  in as an explicit `String` parameter.
* Python exceptions are modelled with `Except`: a raised exception is an
  `.error` result, and since Python mutations performed before the raise
  persist, every stateful operation returns the post-state alongside the
  `Except` value.
* Remote gateway calls (`YouTubeStreamingClient`) are external inputs: each
  call's outcome is passed in as an `Except String α` value, where
  `.error msg` models a raised `googleapiclient` `HttpError` (the spec's
  `PlatformError`).
* `Notifier.notify` never raises (transport failures are swallowed inside the
  collaborator), so notifications are collected as an output list of
  (subject, message) pairs.
* Python `int(...)` is modelled on the non-negative decimal domain relevant
  here by `String.toNat?` (the caller precondition excludes signs,
  whitespace and underscore separators).
-/

namespace StreamingBot

/-- A notification emitted through `Notifier.notify`: (subject, message). -/
abbrev Notification := String × String

/-- Errors raised by the orchestrator: `platformError` models an `HttpError`
escaping a gateway call (the spec's `PlatformError`); `valueError` models a
Python `ValueError` with its message. -/
inductive StreamError where
  | platformError (msg : String)
  | valueError (msg : String)
  deriving Repr, DecidableEq

/-- The spec's `UnknownSessionError`: the code raises
`ValueError("Unknown session")`. -/
def UnknownSessionError : StreamError := .valueError "Unknown session"

/-- The spec's `InvalidScheduleError`: the code raises
`ValueError("scheduled_start_time is required for scheduling.")`. -/
def InvalidScheduleError : StreamError :=
  .valueError "scheduled_start_time is required for scheduling."

/-- `models.StreamContent`. -/
structure StreamContent where
  source : String
  is_loop : Bool := true
  tags : List String := []
  category : Option String := none
  deriving Repr, DecidableEq

/-- `models.StreamRequest`. Scheduled start times are ISO strings (see the
module conventions). -/
structure StreamRequest where
  title : String
  description : String
  privacy_status : String
  resolution : String
  bitrate : String
  content : StreamContent
  scheduled_start_time : Option String := none
  extra_ingestion_urls : List String := []
  deriving Repr, DecidableEq

/-- `models.StreamSession`. -/
structure StreamSession where
  name : String
  broadcast_id : String
  stream_id : String
  ingestion_url : String
  live_chat_id : Option String
  requested : StreamRequest
  ffmpeg_process_pid : Option Nat := none
  started_at : Option String := none
  last_healthcheck : Option String := none
  reconnect_attempts : Nat := 0
  status : String := "pending"
  log : List String := []
  deriving Repr, DecidableEq

/-- The log entry format of `StreamSession.append_log`:
a bracketed timestamp followed by the message. -/
def logEntry (ts msg : String) : String := "[" ++ ts ++ "] " ++ msg

/-- `StreamSession.append_log`: the timestamp produced by
`datetime.utcnow().isoformat()` is the external input `ts`. -/
def appendLog (s : StreamSession) (ts msg : String) : StreamSession :=
  { s with log := s.log ++ [logEntry ts msg] }

/-- The dict returned by `YouTubeStreamingClient.get_stream_health` (all three
keys are always present in the constructed dict). -/
structure HealthDict where
  status : String
  health : String
  configurationIssues : String
  deriving Repr, DecidableEq

/-- The dict returned by `YouTubeStreamingClient.get_broadcast_metrics`; both
values come from `.get` chains and may be `None`. -/
structure MetricsDict where
  concurrent_viewers : Option String
  life_cycle_status : Option String
  deriving Repr, DecidableEq

/-- The dict returned by `YouTubeStreamingClient.create_stream`. -/
structure StreamInfo where
  stream_id : String
  ingestion_address : String
  stream_name : String
  deriving Repr, DecidableEq

/-- `models.AnalyticsSnapshot` as populated by `get_status` (the `raw` dict's
two entries are the Python `str(...)` renderings of the health and metrics
dicts). -/
structure AnalyticsSnapshot where
  concurrent_viewers : Option String := none
  health_status : Option String := none
  frame_rate : Option String := none
  encoder_settings : List (String × String) := []
  raw_stream : String := ""
  raw_broadcast : String := ""
  deriving Repr, DecidableEq

/-- Python truthiness of an optional string (`None` and `""` are falsy). -/
def pyTruthy : Option String → Bool
  | none => false
  | some s => !s.isEmpty

/-- Python `repr` of a plain string as it appears inside `str(dict)`. -/
def pyReprStr (s : String) : String := "\x27" ++ s ++ "\x27"

/-- Python `str` of an optional-string dict value (`None` prints bare). -/
def pyStrOptStr : Option String → String
  | none => "None"
  | some s => pyReprStr s

/-- Python `str` of the health dict built by `get_stream_health`. -/
def pyStrHealth (h : HealthDict) : String :=
  "\x7b\x27status\x27: " ++ pyReprStr h.status ++ ", \x27health\x27: " ++ pyReprStr h.health
    ++ ", \x27configurationIssues\x27: " ++ pyReprStr h.configurationIssues ++ "\x7d"

/-- Python `str` of the metrics dict built by `get_broadcast_metrics`. -/
def pyStrMetrics (m : MetricsDict) : String :=
  "\x7b\x27concurrent_viewers\x27: " ++ pyStrOptStr m.concurrent_viewers
    ++ ", \x27life_cycle_status\x27: " ++ pyStrOptStr m.life_cycle_status ++ "\x7d"

/-- Python `dict.get` on a string-keyed insertion-ordered dict, modelled as an
association list. -/
def dictGet {α : Type} : List (String × α) → String → Option α
  | [], _ => none
  | (k, v) :: rest, key => if k = key then some v else dictGet rest key

/-- Python `d[key] = value`: replace in place if the key exists, else append
(preserving dict insertion order). -/
def dictInsert {α : Type} : List (String × α) → String → α → List (String × α)
  | [], key, value => [(key, value)]
  | (k, v) :: rest, key, value =>
      if k = key then (key, value) :: rest
      else (k, v) :: dictInsert rest key value

/-- Python `"…".rstrip('k')`: drop every trailing `'k'`. -/
def pyRstripK (s : String) : String :=
  String.mk ((s.data.reverse.dropWhile (· = 'k')).reverse)

/-- Python `s[-10:]`: the last ten elements (or all of them, if fewer). -/
def pyLastTen {α : Type} (l : List α) : List α := l.drop (l.length - 10)

/-! ### The encoder command synthesizer (`_build_ffmpeg_command`)

The Python method builds a token list `args` and returns `" ".join(args)` —
a single string, which `_launch_ffmpeg` re-tokenizes with `shlex.split`.
Each list-building step below mirrors one statement of the method. -/

/-- `input_args`: optional loop directive, then the realtime flag and source. -/
def buildInputArgs (content : StreamContent) : List String :=
  (if content.is_loop then ["-stream_loop", "-1"] else [])
    ++ ["-re", "-i", content.source]

/-- Python `request.resolution.replace('p', '')` (removes every `'p'`). -/
def pyStripP (s : String) : String := String.mk (s.data.filter (· ≠ 'p'))

/-- The `filters` list: one scale filter when the resolution string is truthy. -/
def buildFilters (request : StreamRequest) : List String :=
  if request.resolution.isEmpty then []
  else ["scale=-2:" ++ pyStripP request.resolution]

/-- `filter_args`: `["-vf", ",".join(filters)]` when `filters` is non-empty. -/
def buildFilterArgs (request : StreamRequest) : List String :=
  match buildFilters request with
  | [] => []
  | fs => ["-vf", String.intercalate "," fs]

/-- One tee leg: the per-leg modifier prefix followed by the destination. -/
def teeLeg (dest : String) : String := "[f=flv:onfail=ignore]" ++ dest

/-- `destinations = [ingestion_url, *request.extra_ingestion_urls]`. -/
def destinations (ingestion_url : String) (request : StreamRequest) :
    List String :=
  ingestion_url :: request.extra_ingestion_urls

/-- `output_args`: single-target flv write when there is exactly one
destination (which is then `ingestion_url`), else the tee construction whose
target list is ONE token wrapped in literal double quotes
(the joined target list wrapped in literal double quotes). -/
def buildOutputArgs (ingestion_url : String) (request : StreamRequest) :
    List String :=
  match request.extra_ingestion_urls with
  | [] => ["-f", "flv", ingestion_url]
  | _ =>
      ["-f", "tee",
        "\"" ++ String.intercalate "|"
          ((destinations ingestion_url request).map teeLeg) ++ "\""]

/-- Python `int(s)` on the non-negative decimal domain (see the module
conventions); `none` models the raised `ValueError`. -/
def pyIntDec (s : String) : Option Nat :=
  if s.data = [] then none
  else if s.data.all Char.isDigit then
    some (s.data.foldl (fun n c => n * 10 + (c.toNat - 48)) 0)
  else none

/-- `str(int(int(video_bitrate.rstrip('k')) * 2)) + "k"`; `none` models the
`ValueError` raised by `int` on an unparseable string. -/
def buildBufsize (bitrate : String) : Option String :=
  (pyIntDec (pyRstripK bitrate)).map (fun n => Nat.repr (n * 2) ++ "k")

/-- The fixed middle of the `args` list (codec, rate-control and audio
tokens), given the already-computed buffer-size token. -/
def buildCoreArgs (bitrate bufsize : String) : List String :=
  ["-c:v", "libx264", "-preset", "veryfast", "-b:v", bitrate,
   "-maxrate", bitrate, "-bufsize", bufsize, "-pix_fmt", "yuv420p",
   "-c:a", "aac", "-ar", "44100", "-b:a", "160k"]

/-- The full `args` token list of `_build_ffmpeg_command`; `none` models the
`ValueError` escaping from the buffer-size computation. -/
def buildFfmpegArgs (content : StreamContent) (ingestion_url : String)
    (request : StreamRequest) : Option (List String) :=
  (buildBufsize request.bitrate).map fun bufsize =>
    "ffmpeg" :: (buildInputArgs content
      ++ buildCoreArgs request.bitrate bufsize
      ++ buildFilterArgs request
      ++ buildOutputArgs ingestion_url request)

/-- `_build_ffmpeg_command` itself: `" ".join(args)` — the method returns a
single space-joined string, not a token list. -/
def buildFfmpegCommand (content : StreamContent) (ingestion_url : String)
    (request : StreamRequest) : Option String :=
  (buildFfmpegArgs content ingestion_url request).map (String.intercalate " ")

/-! ### Stateful operations of `StreamingManager`

The manager's mutable state is its `sessions` dict plus the APScheduler job
store (modelled as a dict keyed by job id). Each Python method becomes a
function from the pre-state and the outcomes of its external calls to the
post-state, the `Except` result, and the emitted notifications. -/

/-- A pending APScheduler job registered by `schedule_stream`. -/
structure ScheduledJob where
  name : String
  request : StreamRequest
  run_date : String
  deriving Repr, DecidableEq

/-- The `StreamingManager`'s mutable state. -/
structure ManagerState where
  sessions : List (String × StreamSession) := []
  jobs : List (String × ScheduledJob) := []
  deriving Repr, DecidableEq

/-- Store a session under its broadcast id (`self.sessions[bid] = session`). -/
def putSession (st : ManagerState) (broadcast_id : String)
    (s : StreamSession) : ManagerState :=
  { st with sessions := dictInsert st.sessions broadcast_id s }

/-- `_launch_ffmpeg`: build the command (a `ValueError` from the bitrate parse
escapes before any mutation), log it, record the spawned process id and start
time, set status `"streaming"`, request the platform transition to live
(whose failure escapes after those mutations), then emit the started
notification. The spawned pid and the clock readings are external inputs. -/
def launchFfmpeg (s : StreamSession) (ts : String) (pid : Nat) (now : String)
    (gTransition : Except String Unit) :
    StreamSession × Except StreamError Unit × List Notification :=
  match buildFfmpegCommand s.requested.content s.ingestion_url s.requested with
  | none => (s, .error (.valueError "invalid literal for int()"), [])
  | some cmd =>
      let s1 := appendLog s ts ("Launching ffmpeg: " ++ cmd)
      let s2 := { s1 with ffmpeg_process_pid := some pid,
                          started_at := some now, status := "streaming" }
      match gTransition with
      | .error m => (s2, .error (.platformError m), [])
      | .ok _ =>
          (s2, .ok (),
            [("Stream " ++ s.name ++ " started",
              "Broadcast " ++ s.broadcast_id ++ " is now live.")])

/-- The part of `_handle_reconnect` that precedes the `_launch_ffmpeg` call:
increment the attempt counter, log, and emit the reconnecting notification
naming the (already incremented) attempt number. -/
def handleReconnectPre (s : StreamSession) (ts : String) :
    StreamSession × List Notification :=
  let s1 := { s with reconnect_attempts := s.reconnect_attempts + 1 }
  let s2 := appendLog s1 ts "Attempting reconnection."
  (s2,
    [("Reconnecting stream " ++ s.name,
      "Health degraded for broadcast " ++ s.broadcast_id ++ ", attempt "
        ++ Nat.repr s2.reconnect_attempts ++ ".")])

/-- `_handle_reconnect`: the pre-launch phase followed by `_launch_ffmpeg`. -/
def handleReconnect (s : StreamSession) (ts1 ts2 : String) (pid : Nat)
    (now : String) (gTransition : Except String Unit) :
    StreamSession × Except StreamError Unit × List Notification :=
  let pre := handleReconnectPre s ts1
  let launched := launchFfmpeg pre.1 ts2 pid now gTransition
  (launched.1, launched.2.1, pre.2 ++ launched.2.2)

/-- Outcomes of the gateway calls `start_stream` may perform, in call order;
each `.error msg` models a raised `HttpError`. -/
structure GatewayStart where
  create_broadcast : Except String String
  create_stream : Except String StreamInfo
  bind : Except String Unit
  get_live_chat_id : Except String (Option String)
  transition_live : Except String Unit
  add_live_chat_message : Except String Unit
  deriving Repr

/-- `start_stream`: provision broadcast and stream, bind, resolve the chat id,
register the session in `"configured"` state, launch immediately when no
scheduled start time is present, optionally post the chat announcement, and
emit the configured notification. Gateway failures raise at their call site,
leaving all mutations made so far in place. -/
def startStream (st : ManagerState) (g : GatewayStart) (name : String)
    (request : StreamRequest) (ts ts2 : String) (pid : Nat) (now : String) :
    ManagerState × Except StreamError StreamSession × List Notification :=
  match g.create_broadcast with
  | .error m => (st, .error (.platformError m), [])
  | .ok broadcast_id =>
  match g.create_stream with
  | .error m => (st, .error (.platformError m), [])
  | .ok info =>
  let ingestion_url := info.ingestion_address ++ "/" ++ info.stream_name
  match g.bind with
  | .error m => (st, .error (.platformError m), [])
  | .ok _ =>
  match g.get_live_chat_id with
  | .error m => (st, .error (.platformError m), [])
  | .ok live_chat_id =>
  let session : StreamSession :=
    { name := name, broadcast_id := broadcast_id, stream_id := info.stream_id,
      ingestion_url := ingestion_url, live_chat_id := live_chat_id,
      requested := request, status := "configured" }
  let session := appendLog session ts "Session configured and bound."
  let st1 := putSession st broadcast_id session
  let afterLaunch :
      ManagerState × StreamSession × Except StreamError Unit
        × List Notification :=
    match request.scheduled_start_time with
    | none =>
        let launched := launchFfmpeg session ts2 pid now g.transition_live
        (putSession st1 broadcast_id launched.1, launched.1,
          launched.2.1, launched.2.2)
    | some _ => (st1, session, .ok (), [])
  match afterLaunch.2.2.1 with
  | .error e => (afterLaunch.1, .error e, afterLaunch.2.2.2)
  | .ok _ =>
      let chatResult : Except String Unit :=
        if pyTruthy afterLaunch.2.1.live_chat_id then g.add_live_chat_message
        else .ok ()
      match chatResult with
      | .error m => (afterLaunch.1, .error (.platformError m), afterLaunch.2.2.2)
      | .ok _ =>
          (afterLaunch.1, .ok afterLaunch.2.1,
            afterLaunch.2.2.2
              ++ [("Stream " ++ name ++ " configured",
                   "Broadcast " ++ broadcast_id ++ " is ready with ingestion "
                     ++ ingestion_url ++ ".")])

/-- `stop_stream`: a silent no-op on an unknown id; otherwise log (when an
encoder process is recorded — termination errors are caught and logged),
request the platform transition to complete (whose failure escapes), set
status `"stopped"`, and emit the stopped notification. -/
def stopStream (st : ManagerState) (broadcast_id : String)
    (reason : String := "manual stop") (ts : String := "")
    (gTransition : Except String Unit := .ok ()) :
    ManagerState × Except StreamError Unit × List Notification :=
  match dictGet st.sessions broadcast_id with
  | none => (st, .ok (), [])
  | some session =>
      let session1 :=
        if session.ffmpeg_process_pid.isSome then
          appendLog session ts "Stopping ffmpeg process."
        else session
      match gTransition with
      | .error m =>
          (putSession st broadcast_id session1, .error (.platformError m), [])
      | .ok _ =>
          let session2 := { session1 with status := "stopped" }
          (putSession st broadcast_id session2, .ok (),
            [("Stream " ++ session.name ++ " stopped", reason)])

/-- `schedule_stream`: `ValueError` when no scheduled start time is present;
otherwise register the job under the name, a hyphen, and the ISO start time with
`replace_existing=True` (an existing job under the same id is replaced). -/
def scheduleStream (st : ManagerState) (name : String)
    (request : StreamRequest) : ManagerState × Except StreamError String :=
  match request.scheduled_start_time with
  | none => (st, .error InvalidScheduleError)
  | some t =>
      let jobId := name ++ "-" ++ t
      let job : ScheduledJob := { name := name, request := request, run_date := t }
      ({ st with jobs := dictInsert st.jobs jobId job }, .ok jobId)

/-- `update_content`: `ValueError` on an unknown id; otherwise replace the
request's content descriptor and log. -/
def updateContent (st : ManagerState) (broadcast_id : String)
    (content : StreamContent) (ts : String) :
    ManagerState × Except StreamError Unit :=
  match dictGet st.sessions broadcast_id with
  | none => (st, .error UnknownSessionError)
  | some session =>
      let newRequest := { session.requested with content := content }
      let session1 := { session with requested := newRequest }
      let session2 := appendLog session1 ts "Content updated for next restart."
      (putSession st broadcast_id session2, .ok ())

/-- The status view dict returned by `get_status`. -/
structure StatusView where
  status : String
  started_at : Option String
  reconnect_attempts : Nat
  analytics : AnalyticsSnapshot
  log_tail : List String
  deriving Repr, DecidableEq

/-- `get_status`: `ValueError` on an unknown id; otherwise poll health and
metrics (failures escape), build a fresh snapshot and return the view. The
session and the registry are never written. -/
def getStatus (st : ManagerState) (broadcast_id : String)
    (gHealth : Except String HealthDict)
    (gMetrics : Except String MetricsDict) :
    ManagerState × Except StreamError StatusView :=
  match dictGet st.sessions broadcast_id with
  | none => (st, .error UnknownSessionError)
  | some session =>
  match gHealth with
  | .error m => (st, .error (.platformError m))
  | .ok health =>
  match gMetrics with
  | .error m => (st, .error (.platformError m))
  | .ok metrics =>
  let snapshot : AnalyticsSnapshot :=
    { concurrent_viewers := metrics.concurrent_viewers,
      health_status := some health.health,
      raw_stream := pyStrHealth health,
      raw_broadcast := pyStrMetrics metrics }
  (st, .ok
    { status := session.status,
      started_at := session.started_at,
      reconnect_attempts := session.reconnect_attempts,
      analytics := snapshot,
      log_tail := pyLastTen session.log })

/-- One iteration of the `_monitor_session` loop body (the loop exits when the
session is gone or its status leaves `{"configured", "streaming"}`): record
the health-check time, poll health (failure escapes the task), log it, invoke
the reconnect path when activity is not `"active"` or health is `"error"`,
then poll metrics and log a truthy viewer count. -/
def monitorStep (st : ManagerState) (broadcast_id : String) (now : String)
    (gHealth : Except String HealthDict) (ts1 rts1 rts2 : String) (pid : Nat)
    (lnow : String) (gTransition : Except String Unit)
    (gMetrics : Except String MetricsDict) (ts3 : String) :
    ManagerState × Except StreamError Unit × List Notification :=
  match dictGet st.sessions broadcast_id with
  | none => (st, .ok (), [])
  | some session =>
  if session.status = "configured" ∨ session.status = "streaming" then
    let session1 := { session with last_healthcheck := some now }
    match gHealth with
    | .error m =>
        (putSession st broadcast_id session1, .error (.platformError m), [])
    | .ok health =>
        let session2 := appendLog session1 ts1 ("Health: " ++ pyStrHealth health)
        let reconnected :=
          if health.status ≠ "active" ∨ health.health = "error" then
            handleReconnect session2 rts1 rts2 pid lnow gTransition
          else (session2, .ok (), [])
        match reconnected.2.1 with
        | .error e =>
            (putSession st broadcast_id reconnected.1, .error e,
              reconnected.2.2)
        | .ok _ =>
        match gMetrics with
        | .error m =>
            (putSession st broadcast_id reconnected.1,
              .error (.platformError m), reconnected.2.2)
        | .ok metrics =>
            let session4 :=
              if pyTruthy metrics.concurrent_viewers then
                appendLog reconnected.1 ts3
                  ("Viewers: " ++ metrics.concurrent_viewers.getD "")
              else reconnected.1
            (putSession st broadcast_id session4, .ok (), reconnected.2.2)
  else (st, .ok (), [])

/-- `post_live_chat_message`: posts only when the session exists and its chat
id is truthy; a gateway failure escapes; the state is never written. -/
def postLiveChatMessage (st : ManagerState) (broadcast_id _message : String)
    (gPost : Except String Unit) : ManagerState × Except StreamError Unit :=
  match dictGet st.sessions broadcast_id with
  | none => (st, .ok ())
  | some session =>
      if pyTruthy session.live_chat_id then
        match gPost with
        | .error m => (st, .error (.platformError m))
        | .ok _ => (st, .ok ())
      else (st, .ok ())

/-- `disable_chat`: calls the gateway only when the session exists; a gateway
failure escapes; the state is never written. -/
def disableChat (st : ManagerState) (broadcast_id : String)
    (gDisable : Except String Unit) : ManagerState × Except StreamError Unit :=
  match dictGet st.sessions broadcast_id with
  | none => (st, .ok ())
  | some _ =>
      match gDisable with
      | .error m => (st, .error (.platformError m))
      | .ok _ => (st, .ok ())

/-! ### The operations as a single step relation, for lifetime invariants -/

/-- Every manager operation (and the monitor-loop body), with its external
inputs baked in. -/
inductive Op where
  | start (g : GatewayStart) (name : String) (request : StreamRequest)
      (ts ts2 : String) (pid : Nat) (now : String)
  | stop (broadcast_id reason ts : String) (gTransition : Except String Unit)
  | schedule (name : String) (request : StreamRequest)
  | update (broadcast_id : String) (content : StreamContent) (ts : String)
  | status (broadcast_id : String) (gHealth : Except String HealthDict)
      (gMetrics : Except String MetricsDict)
  | monitor (broadcast_id now : String) (gHealth : Except String HealthDict)
      (ts1 rts1 rts2 : String) (pid : Nat) (lnow : String)
      (gTransition : Except String Unit)
      (gMetrics : Except String MetricsDict) (ts3 : String)
  | postChat (broadcast_id message : String) (gPost : Except String Unit)
  | chatOff (broadcast_id : String) (gDisable : Except String Unit)
  deriving Repr

/-- The state reached by running one operation. -/
def applyOp (st : ManagerState) : Op → ManagerState
  | .start g name request ts ts2 pid now =>
      (startStream st g name request ts ts2 pid now).1
  | .stop broadcast_id reason ts gTransition =>
      (stopStream st broadcast_id reason ts gTransition).1
  | .schedule name request => (scheduleStream st name request).1
  | .update broadcast_id content ts =>
      (updateContent st broadcast_id content ts).1
  | .status broadcast_id gHealth gMetrics =>
      (getStatus st broadcast_id gHealth gMetrics).1
  | .monitor broadcast_id now gHealth ts1 rts1 rts2 pid lnow gT gMetrics ts3 =>
      (monitorStep st broadcast_id now gHealth ts1 rts1 rts2 pid lnow gT
        gMetrics ts3).1
  | .postChat broadcast_id message gPost =>
      (postLiveChatMessage st broadcast_id message gPost).1
  | .chatOff broadcast_id gDisable => (disableChat st broadcast_id gDisable).1

/-- A `start` operation is registry-fresh when the broadcast id the platform
assigns is not already a registry key (platform-assigned ids of newly created
broadcasts are fresh). -/
def opFresh (st : ManagerState) : Op → Prop
  | .start g _ _ _ _ _ _ =>
      ∀ broadcast_id, g.create_broadcast = .ok broadcast_id →
        dictGet st.sessions broadcast_id = none
  | _ => True

/-- A raised gateway call (used to state failure hypotheses). -/
def gwFailed {α : Type} : Except String α → Bool
  | .error _ => true
  | .ok _ => false

/-- The operation result is a propagated `PlatformError`. -/
def isPlatformFailure {α : Type} : Except StreamError α → Bool
  | .error (.platformError _) => true
  | _ => false

/-! ### Concrete fixtures (used by witnesses and counterexamples) -/

/-- A concrete content descriptor. -/
def exContent : StreamContent := { source := "video.mp4" }

/-- A concrete request with no extra destinations. -/
def exRequest : StreamRequest :=
  { title := "Demo", description := "d", privacy_status := "unlisted",
    resolution := "1080p", bitrate := "4500k", content := exContent }

/-- The same request with one extra ingestion destination. -/
def exRequestMulti : StreamRequest :=
  { exRequest with extra_ingestion_urls := ["rtmp://b/y"] }

/-- A concrete primary ingestion URL. -/
def exUrl : String := "rtmp://a/x"

/-- A concrete streaming session. -/
def exSession : StreamSession :=
  { name := "demo", broadcast_id := "B1", stream_id := "S1",
    ingestion_url := exUrl, live_chat_id := none, requested := exRequest,
    ffmpeg_process_pid := some 41, started_at := some "T0",
    status := "streaming", log := [] }

/-- A registry holding `exSession`. -/
def exState : ManagerState := { sessions := [("B1", exSession)] }

/-- The concrete session after stopping `exSession` at timestamp `"T"`. -/
def exSessionStopped : StreamSession :=
  { exSession with
      status := "stopped",
      log := [logEntry "T" "Stopping ffmpeg process."] }


/-! ### Helper lemmas -/

/-- A list of digit characters is untouched by `rstrip('k')`-style dropping. -/
theorem dropWhile_k_of_digits (l : List Char) (h : ∀ c ∈ l, c.isDigit) :
    l.dropWhile (fun c => c = 'k') = l := by
  cases l with
  | nil => rfl
  | cons a as =>
      have ha : a.isDigit := h a (by simp)
      have hk : ¬ (a = 'k') := by
        intro hak
        rw [hak] at ha
        exact absurd ha (by decide)
      simp [List.dropWhile_cons, hk]

/-- On a digit string followed by the `"k"` suffix, `rstrip('k')` removes
exactly the suffix. -/
theorem pyRstripK_digits (ds : String) (h : ∀ c ∈ ds.data, c.isDigit) :
    pyRstripK (ds ++ "k") = ds := by
  unfold pyRstripK
  have hdata : (ds ++ "k").data = ds.data ++ ['k'] := by
    rw [String.data_append]
  rw [hdata, List.reverse_append]
  have hrev : ∀ c ∈ ds.data.reverse, c.isDigit := by
    intro c hc
    exact h c (List.mem_reverse.mp hc)
  simp only [List.reverse_cons, List.reverse_nil, List.nil_append,
    List.singleton_append, List.dropWhile_cons]
  norm_num
  rw [dropWhile_k_of_digits ds.data.reverse hrev, List.reverse_reverse]

/-- A non-empty all-digit string parses under the `int(...)` model. -/
theorem pyIntDec_digits (ds : String) (hne : ds.data ≠ [])
    (h : ∀ c ∈ ds.data, c.isDigit) :
    pyIntDec ds = some (ds.data.foldl (fun n c => n * 10 + (c.toNat - 48)) 0) := by
  unfold pyIntDec
  rw [if_neg hne, if_pos (by exact List.all_eq_true.mpr (fun c hc => h c hc))]

/-- `buildBufsize` on a well-formed bitrate `ds ++ "k"`. -/
theorem buildBufsize_wellformed (ds : String) (hne : ds.data ≠ [])
    (h : ∀ c ∈ ds.data, c.isDigit) :
    buildBufsize (ds ++ "k") =
      some (Nat.repr ((ds.data.foldl (fun n c => n * 10 + (c.toNat - 48)) 0) * 2)
        ++ "k") := by
  unfold buildBufsize
  rw [pyRstripK_digits ds h, pyIntDec_digits ds hne h]
  rfl

/-- `dictGet` after `dictInsert`. -/
theorem dictGet_dictInsert {α : Type} (d : List (String × α)) (k q : String)
    (v : α) :
    dictGet (dictInsert d k v) q = if k = q then some v else dictGet d q := by
  induction d with
  | nil => simp [dictInsert, dictGet]
  | cons kv rest ih =>
      obtain ⟨a, w⟩ := kv
      by_cases hak : a = k
      · subst hak
        simp only [dictInsert, if_pos rfl, dictGet]
        by_cases haq : a = q
        · simp [haq]
        · simp [haq]
      · simp only [dictInsert, if_neg hak, dictGet]
        by_cases haq : a = q
        · subst haq
          have hkq : ¬ (k = a) := fun hc => hak hc.symm
          simp [hkq]
        · simp only [if_neg haq, ih]

/-- Re-inserting under the same key replaces the previous value. -/
theorem dictInsert_same_key {α : Type} (d : List (String × α)) (k : String)
    (v w : α) : dictInsert (dictInsert d k v) k w = dictInsert d k w := by
  induction d with
  | nil => simp [dictInsert]
  | cons kv rest ih =>
      obtain ⟨a, u⟩ := kv
      by_cases hak : a = k
      · subst hak
        simp [dictInsert]
      · simp [dictInsert, hak, ih]

/-! ### Claims about the encoder command synthesizer -/

/-- Claim C2, counterexample. The spec says the synthesizer "returns a
structured argument list, not a pre-quoted shell string", with destination
fan-out "encoded as discrete, individually-escaped tokens". On the code, for
a request with one extra destination, `_build_ffmpeg_command` returns ONE
space-joined string; the tee fan-out occupies a single element of the
intermediate `args` list, wrapped in literal double-quote characters, and the
individual legs are not tokens of the list. -/
theorem synth_returns_quoted_string_counterexample :
    buildFfmpegCommand exContent exUrl exRequestMulti =
      some ("ffmpeg -stream_loop -1 -re -i video.mp4 -c:v libx264 -preset "
        ++ "veryfast -b:v 4500k -maxrate 4500k -bufsize 9000k -pix_fmt "
        ++ "yuv420p -c:a aac -ar 44100 -b:a 160k -vf scale=-2:1080 -f tee "
        ++ "\"[f=flv:onfail=ignore]rtmp://a/x|[f=flv:onfail=ignore]rtmp://b/y\"")
    ∧ ("\"[f=flv:onfail=ignore]rtmp://a/x|[f=flv:onfail=ignore]rtmp://b/y\""
        ∈ (buildFfmpegArgs exContent exUrl exRequestMulti).getD [])
    ∧ ("[f=flv:onfail=ignore]rtmp://b/y"
        ∉ (buildFfmpegArgs exContent exUrl exRequestMulti).getD [])
    ∧ ("[f=flv:onfail=ignore]rtmp://a/x"
        ∉ (buildFfmpegArgs exContent exUrl exRequestMulti).getD []) := by
  set_option maxRecDepth 8192 in
  refine ⟨by decide, by decide, by decide, by decide⟩

/-- Claim C2, amended. The synthesizer returns the single space-join of its
token list; in the multi-destination case the tee fan-out is one token
consisting of the `|`-joined per-leg-modified target list wrapped in literal
double quotes (the launcher later re-tokenizes the string with
`shlex.split`). -/
theorem synth_joined_string_amended (content : StreamContent)
    (url : String) (request : StreamRequest) (bufsize : String)
    (h : buildBufsize request.bitrate = some bufsize)
    (e : String) (es : List String)
    (hx : request.extra_ingestion_urls = e :: es) :
    buildFfmpegCommand content url request =
      some (String.intercalate " "
        ((buildFfmpegArgs content url request).getD []))
    ∧ buildFfmpegArgs content url request =
        some ("ffmpeg" :: (buildInputArgs content
          ++ buildCoreArgs request.bitrate bufsize
          ++ buildFilterArgs request
          ++ ["-f", "tee",
              "\"" ++ String.intercalate "|" ((url :: e :: es).map teeLeg)
                ++ "\""])) := by
  have hargs : buildFfmpegArgs content url request =
      some ("ffmpeg" :: (buildInputArgs content
        ++ buildCoreArgs request.bitrate bufsize
        ++ buildFilterArgs request
        ++ buildOutputArgs url request)) := by
    unfold buildFfmpegArgs
    rw [h]
    rfl
  have hout : buildOutputArgs url request =
      ["-f", "tee",
        "\"" ++ String.intercalate "|" ((url :: e :: es).map teeLeg) ++ "\""] := by
    unfold buildOutputArgs
    rw [hx]
    simp [destinations, hx]
  refine ⟨?_, by rw [hargs, hout]⟩
  unfold buildFfmpegCommand
  rw [hargs]
  rfl

/-- Claim C5. The destination set is the primary URL followed by the extra
destinations in order; with zero extras the output is a single-target flv
write to the primary URL, and with `N ≥ 1` extras it is a tee construction
whose target list has exactly `N + 1` legs, each wrapped with the per-leg
`[f=flv:onfail=ignore]` modifier. -/
theorem synth_destination_fanout (content : StreamContent) (url : String)
    (request : StreamRequest) (bufsize : String)
    (h : buildBufsize request.bitrate = some bufsize) :
    destinations url request = url :: request.extra_ingestion_urls
    ∧ buildFfmpegArgs content url request =
        some ("ffmpeg" :: (buildInputArgs content
          ++ buildCoreArgs request.bitrate bufsize
          ++ buildFilterArgs request
          ++ buildOutputArgs url request))
    ∧ (request.extra_ingestion_urls = [] →
        buildOutputArgs url request = ["-f", "flv", url])
    ∧ (∀ e es, request.extra_ingestion_urls = e :: es →
        buildOutputArgs url request =
          ["-f", "tee",
            "\"" ++ String.intercalate "|"
              ((destinations url request).map teeLeg) ++ "\""]
        ∧ ((destinations url request).map teeLeg).length =
            (e :: es).length + 1
        ∧ (destinations url request).map teeLeg =
            (url :: e :: es).map (fun d => "[f=flv:onfail=ignore]" ++ d)) := by
  refine ⟨rfl, ?_, ?_, ?_⟩
  · unfold buildFfmpegArgs
    rw [h]
    rfl
  · intro hx
    unfold buildOutputArgs
    rw [hx]
  · intro e es hx
    refine ⟨?_, ?_, ?_⟩
    · unfold buildOutputArgs
      rw [hx]
    · simp [destinations, hx]
    · simp [destinations, hx, teeLeg]

/-- Claim C6. For a well-formed bitrate (digits followed by the `"k"` unit
suffix), the synthesized token list sets both `-b:v` and `-maxrate` to the
requested bitrate and `-bufsize` to twice the numeric value with the same
`"k"` suffix. -/
theorem synth_bitrate_maxrate_bufsize (content : StreamContent) (url : String)
    (request : StreamRequest) (ds : String) (n : Nat)
    (hbr : request.bitrate = ds ++ "k")
    (hne : ds.data ≠ [])
    (hdig : ∀ c ∈ ds.data, c.isDigit)
    (hn : ds.data.foldl (fun a c => a * 10 + (c.toNat - 48)) 0 = n) :
    buildBufsize request.bitrate = some (Nat.repr (n * 2) ++ "k")
    ∧ buildFfmpegArgs content url request =
        some ("ffmpeg" :: (buildInputArgs content
          ++ ["-c:v", "libx264", "-preset", "veryfast",
              "-b:v", request.bitrate, "-maxrate", request.bitrate,
              "-bufsize", Nat.repr (n * 2) ++ "k",
              "-pix_fmt", "yuv420p", "-c:a", "aac", "-ar", "44100",
              "-b:a", "160k"]
          ++ buildFilterArgs request
          ++ buildOutputArgs url request)) := by
  have hbuf : buildBufsize request.bitrate = some (Nat.repr (n * 2) ++ "k") := by
    rw [hbr, buildBufsize_wellformed ds hne hdig, hn]
  refine ⟨hbuf, ?_⟩
  unfold buildFfmpegArgs
  rw [hbuf]
  rfl

/-- Claim C8. On the caller precondition (bitrate is digits followed by the
`"k"` suffix) the synthesizer is total: it returns a value and its only
failure branch — the numeric bitrate parse feeding the buffer-size
computation — is unreachable. -/
theorem synth_total_on_wellformed_bitrate (content : StreamContent)
    (url : String) (request : StreamRequest) (ds : String)
    (hbr : request.bitrate = ds ++ "k")
    (hne : ds.data ≠ [])
    (hdig : ∀ c ∈ ds.data, c.isDigit) :
    (buildFfmpegCommand content url request).isSome
    ∧ (buildBufsize request.bitrate).isSome := by
  have hbuf := buildBufsize_wellformed ds hne hdig
  rw [← hbr] at hbuf
  constructor
  · unfold buildFfmpegCommand buildFfmpegArgs
    rw [hbuf]
    rfl
  · rw [hbuf]
    rfl

/-- Claim C2, amended, witness, at the concrete multi-destination request. -/
theorem synth_joined_string_amended_witness :
    buildFfmpegCommand exContent exUrl exRequestMulti =
      some (String.intercalate " "
        ((buildFfmpegArgs exContent exUrl exRequestMulti).getD []))
    ∧ buildFfmpegArgs exContent exUrl exRequestMulti =
        some ("ffmpeg" :: (buildInputArgs exContent
          ++ buildCoreArgs exRequestMulti.bitrate "9000k"
          ++ buildFilterArgs exRequestMulti
          ++ ["-f", "tee",
              "\"" ++ String.intercalate "|"
                ((exUrl :: "rtmp://b/y" :: ([] : List String)).map teeLeg)
                ++ "\""])) :=
  synth_joined_string_amended exContent exUrl exRequestMulti "9000k"
    (by decide) "rtmp://b/y" [] rfl

/-- Claim C5, witness, at the concrete single- and multi-destination requests. -/
theorem synth_destination_fanout_witness :
    destinations exUrl exRequestMulti =
      exUrl :: exRequestMulti.extra_ingestion_urls
    ∧ buildOutputArgs exUrl exRequest = ["-f", "flv", exUrl]
    ∧ buildOutputArgs exUrl exRequestMulti =
        ["-f", "tee",
          "\"" ++ String.intercalate "|"
            ((destinations exUrl exRequestMulti).map teeLeg) ++ "\""]
    ∧ ((destinations exUrl exRequestMulti).map teeLeg).length = 2 := by
  have h1 := synth_destination_fanout exContent exUrl exRequestMulti "9000k"
    (by decide)
  have h2 := synth_destination_fanout exContent exUrl exRequest "9000k"
    (by decide)
  refine ⟨h1.1, h2.2.2.1 rfl, (h1.2.2.2 "rtmp://b/y" [] rfl).1, ?_⟩
  have hlen := (h1.2.2.2 "rtmp://b/y" [] rfl).2.1
  simpa using hlen

/-- Claim C6, witness: for bitrate `"4500k"` the buffer-size token is
`"9000k"`. -/
theorem synth_bitrate_maxrate_bufsize_witness :
    buildBufsize "4500k" = some "9000k"
    ∧ buildFfmpegArgs exContent exUrl exRequest =
        some ("ffmpeg" :: (buildInputArgs exContent
          ++ ["-c:v", "libx264", "-preset", "veryfast",
              "-b:v", exRequest.bitrate, "-maxrate", exRequest.bitrate,
              "-bufsize", "9000k",
              "-pix_fmt", "yuv420p", "-c:a", "aac", "-ar", "44100",
              "-b:a", "160k"]
          ++ buildFilterArgs exRequest
          ++ buildOutputArgs exUrl exRequest)) := by
  have h := synth_bitrate_maxrate_bufsize exContent exUrl exRequest "4500" 4500
    (by decide) (by decide) (by decide) (by decide)
  have e : Nat.repr (4500 * 2) ++ "k" = "9000k" := by decide
  have e2 : exRequest.bitrate = "4500k" := rfl
  rw [e] at h
  rw [e2] at h
  exact ⟨h.1, h.2⟩

/-- Claim C8, witness, at the concrete request with bitrate `"4500k"`. -/
theorem synth_total_on_wellformed_bitrate_witness :
    (buildFfmpegCommand exContent exUrl exRequest).isSome
    ∧ (buildBufsize exRequest.bitrate).isSome :=
  synth_total_on_wellformed_bitrate exContent exUrl exRequest "4500"
    (by decide) (by decide) (by decide)

/-! ### Claims about registry operations -/

/-- Claim C4. On an identifier absent from the registry, `get_status` raises
`UnknownSessionError` (`ValueError("Unknown session")`), whereas
`stop_stream` returns normally, raises nothing, emits nothing, and leaves the
whole manager state — registry and every registered session — unchanged. -/
theorem getStatus_unknown_errors_stopStream_unknown_noop
    (st : ManagerState) (broadcast_id : String)
    (gHealth : Except String HealthDict) (gMetrics : Except String MetricsDict)
    (reason ts : String) (gTransition : Except String Unit)
    (h : dictGet st.sessions broadcast_id = none) :
    getStatus st broadcast_id gHealth gMetrics = (st, .error UnknownSessionError)
    ∧ stopStream st broadcast_id reason ts gTransition = (st, .ok (), []) := by
  constructor
  · unfold getStatus
    rw [h]
  · unfold stopStream
    rw [h]

/-- Claim C4, witness, at an empty registry and identifier `"B9"`. -/
theorem getStatus_unknown_stopStream_noop_witness :
    getStatus { } "B9" (.ok ⟨"active", "good", ""⟩) (.ok ⟨none, none⟩)
      = ({ }, .error UnknownSessionError)
    ∧ stopStream { } "B9" "manual stop" "T" (.ok ()) = ({ }, .ok (), []) :=
  getStatus_unknown_errors_stopStream_unknown_noop { } "B9"
    (.ok ⟨"active", "good", ""⟩) (.ok ⟨none, none⟩) "manual stop" "T"
    (.ok ()) rfl

/-- Claim C10. `get_status` is read-only on core state: the manager state it
returns is exactly the input state (no session field changes, no log append,
no registry change), and on a registered identifier with successful gateway
reads it returns the status view assembled from the session's current fields,
a fresh snapshot, and the last-10 log tail. -/
theorem getStatus_readonly (st : ManagerState) (broadcast_id : String)
    (gHealth : Except String HealthDict)
    (gMetrics : Except String MetricsDict) :
    (getStatus st broadcast_id gHealth gMetrics).1 = st
    ∧ (∀ session health metrics,
        dictGet st.sessions broadcast_id = some session →
        gHealth = .ok health → gMetrics = .ok metrics →
        (getStatus st broadcast_id gHealth gMetrics).2 = .ok
          { status := session.status,
            started_at := session.started_at,
            reconnect_attempts := session.reconnect_attempts,
            analytics :=
              { concurrent_viewers := metrics.concurrent_viewers,
                health_status := some health.health,
                raw_stream := pyStrHealth health,
                raw_broadcast := pyStrMetrics metrics },
            log_tail := pyLastTen session.log }) := by
  constructor
  · unfold getStatus
    cases hd : dictGet st.sessions broadcast_id with
    | none => rfl
    | some session =>
        cases gHealth with
        | error m => rfl
        | ok health =>
            cases gMetrics with
            | error m => rfl
            | ok metrics => rfl
  · intro session health metrics hd hh hm
    unfold getStatus
    rw [hd, hh, hm]

/-- Claim C10, witness, at the registry holding `exSession`. -/
theorem getStatus_readonly_witness :
    (getStatus exState "B1" (.ok ⟨"active", "good", ""⟩)
      (.ok ⟨some "7", some "live"⟩)).1 = exState
    ∧ (getStatus exState "B1" (.ok ⟨"active", "good", ""⟩)
        (.ok ⟨some "7", some "live"⟩)).2 = .ok
          { status := exSession.status,
            started_at := exSession.started_at,
            reconnect_attempts := exSession.reconnect_attempts,
            analytics :=
              { concurrent_viewers := some "7",
                health_status := some "good",
                raw_stream := pyStrHealth ⟨"active", "good", ""⟩,
                raw_broadcast := pyStrMetrics ⟨some "7", some "live"⟩ },
            log_tail := pyLastTen exSession.log } := by
  have h := getStatus_readonly exState "B1" (.ok ⟨"active", "good", ""⟩)
    (.ok ⟨some "7", some "live"⟩)
  exact ⟨h.1, h.2 exSession ⟨"active", "good", ""⟩ ⟨some "7", some "live"⟩
    (by decide) rfl rfl⟩

/-- Claim C7. `schedule_stream` raises `InvalidScheduleError` exactly when the
scheduled start time is absent (leaving the state unchanged); otherwise it
registers a deferred job keyed `name ++ "-" ++ time`, touching no sessions,
and scheduling again under the same name and time replaces the prior pending
job instead of duplicating it. -/
theorem scheduleStream_invalid_and_replace (st : ManagerState) (name : String)
    (request : StreamRequest) :
    ((scheduleStream st name request).2 = .error InvalidScheduleError ↔
      request.scheduled_start_time = none)
    ∧ (request.scheduled_start_time = none →
        scheduleStream st name request = (st, .error InvalidScheduleError))
    ∧ (∀ t, request.scheduled_start_time = some t →
        (scheduleStream st name request).2 = .ok (name ++ "-" ++ t)
        ∧ (scheduleStream st name request).1.sessions = st.sessions
        ∧ (scheduleStream st name request).1.jobs =
            dictInsert st.jobs (name ++ "-" ++ t) ⟨name, request, t⟩
        ∧ dictGet (scheduleStream st name request).1.jobs (name ++ "-" ++ t) =
            some ⟨name, request, t⟩)
    ∧ (∀ t request2, request.scheduled_start_time = some t →
        request2.scheduled_start_time = some t →
        (scheduleStream (scheduleStream st name request).1 name request2).1.jobs
          = dictInsert st.jobs (name ++ "-" ++ t) ⟨name, request2, t⟩) := by
  refine ⟨?_, ?_, ?_, ?_⟩
  · constructor
    · intro h
      cases ht : request.scheduled_start_time with
      | none => rfl
      | some t =>
          unfold scheduleStream at h
          rw [ht] at h
          simp at h
    · intro h
      unfold scheduleStream
      rw [h]
  · intro h
    unfold scheduleStream
    rw [h]
  · intro t ht
    unfold scheduleStream
    rw [ht]
    refine ⟨rfl, rfl, rfl, ?_⟩
    simp [dictGet_dictInsert]
  · intro t request2 ht ht2
    unfold scheduleStream
    rw [ht, ht2]
    simp [dictInsert_same_key]

/-- Claim C7, witness, at a concrete schedule-twice scenario. -/
theorem scheduleStream_invalid_and_replace_witness :
    (scheduleStream { } "demo" exRequest).2 = .error InvalidScheduleError
    ∧ (scheduleStream { } "demo"
        { exRequest with scheduled_start_time := some "2026-01-01T00:00:00" }).2
        = .ok "demo-2026-01-01T00:00:00"
    ∧ (scheduleStream
        (scheduleStream { } "demo"
          { exRequest with scheduled_start_time := some "2026-01-01T00:00:00" }).1
        "demo"
        { exRequest with scheduled_start_time := some "2026-01-01T00:00:00" }).1.jobs
        = dictInsert ([] : List (String × ScheduledJob)) "demo-2026-01-01T00:00:00"
            ⟨"demo",
              { exRequest with scheduled_start_time := some "2026-01-01T00:00:00" },
              "2026-01-01T00:00:00"⟩ := by
  have h0 := scheduleStream_invalid_and_replace { } "demo" exRequest
  have h1 := scheduleStream_invalid_and_replace { } "demo"
    { exRequest with scheduled_start_time := some "2026-01-01T00:00:00" }
  refine ⟨(h0.1).mpr rfl, (h1.2.2.1 "2026-01-01T00:00:00" rfl).1, ?_⟩
  exact h1.2.2.2 "2026-01-01T00:00:00"
    { exRequest with scheduled_start_time := some "2026-01-01T00:00:00" } rfl rfl

/-- Claim C3. If the broadcast-creation, stream-creation or bind gateway call
fails, `start_stream` propagates a `PlatformError` and the manager state —
in particular the session registry — is left exactly as it was: no partial
session is registered. -/
theorem startStream_gateway_failure_no_partial_registration
    (st : ManagerState) (g : GatewayStart) (name : String)
    (request : StreamRequest) (ts ts2 : String) (pid : Nat) (now : String)
    (h : gwFailed g.create_broadcast = true ∨ gwFailed g.create_stream = true
      ∨ gwFailed g.bind = true) :
    (startStream st g name request ts ts2 pid now).1 = st
    ∧ isPlatformFailure (startStream st g name request ts ts2 pid now).2.1
        = true := by
  unfold startStream
  cases hcb : g.create_broadcast with
  | error m => exact ⟨rfl, rfl⟩
  | ok broadcast_id =>
      cases hcs : g.create_stream with
      | error m => exact ⟨rfl, rfl⟩
      | ok info =>
          cases hb : g.bind with
          | error m => exact ⟨rfl, rfl⟩
          | ok u =>
              exfalso
              rcases h with h | h | h
              · rw [hcb] at h
                simp [gwFailed] at h
              · rw [hcs] at h
                simp [gwFailed] at h
              · rw [hb] at h
                simp [gwFailed] at h

/-- Claim C3, witness: a failing bind call on an empty registry. -/
theorem startStream_gateway_failure_witness :
    (startStream { }
      { create_broadcast := .ok "B1",
        create_stream := .ok ⟨"S1", "rtmp://a", "x"⟩,
        bind := .error "HttpError 403",
        get_live_chat_id := .ok none,
        transition_live := .ok (),
        add_live_chat_message := .ok () }
      "demo" exRequest "T1" "T2" 42 "T3").1 = { }
    ∧ isPlatformFailure
        (startStream { }
          { create_broadcast := .ok "B1",
            create_stream := .ok ⟨"S1", "rtmp://a", "x"⟩,
            bind := .error "HttpError 403",
            get_live_chat_id := .ok none,
            transition_live := .ok (),
            add_live_chat_message := .ok () }
          "demo" exRequest "T1" "T2" 42 "T3").2.1 = true :=
  startStream_gateway_failure_no_partial_registration { }
    { create_broadcast := .ok "B1",
      create_stream := .ok ⟨"S1", "rtmp://a", "x"⟩,
      bind := .error "HttpError 403",
      get_live_chat_id := .ok none,
      transition_live := .ok (),
      add_live_chat_message := .ok () }
    "demo" exRequest "T1" "T2" 42 "T3" (Or.inr (Or.inr rfl))

/-! ### Claims about the reconnect path -/

/-- Claim C1, counterexample. The claim (and spec) say the reconnect path
"transitions the session's status to `Reconnecting`" before performing
Launch. The code's `_handle_reconnect` performs no status assignment at all
before calling `_launch_ffmpeg`: on a concrete `Streaming` session the status
right before the Launch sub-operation is still `"streaming"`, never
`"reconnecting"` (no code path assigns a reconnecting status; the session
statuses occurring in the code are pending/configured/streaming/stopped). -/
theorem reconnect_no_reconnecting_status_counterexample :
    (handleReconnectPre exSession "T1").1.status = "streaming"
    ∧ (handleReconnectPre exSession "T1").1.status ≠ "reconnecting"
    ∧ (handleReconnect exSession "T1" "T2" 42 "T3" (.ok ())).1.status
        = "streaming" := by
  refine ⟨rfl, by decide, ?_⟩
  set_option maxRecDepth 8192 in decide

/-- Claim C1, amended. On a session whose reconnect path is invoked (with the
bitrate synthesizable and the platform transition succeeding), the reconnect
operation increments the reconnect-attempt counter by exactly 1, appends the
attempt log entry, emits a "Reconnecting" notification naming the new attempt
number, leaves the status unchanged until Launch, and Launch then records the
new encoder-process handle and start time, leaves the status at `"streaming"`,
and emits the started notification. -/
theorem reconnect_amended_behavior (s : StreamSession) (ts1 ts2 : String)
    (pid : Nat) (now : String) (cmd : String)
    (h : buildFfmpegCommand s.requested.content s.ingestion_url s.requested
      = some cmd) :
    (handleReconnect s ts1 ts2 pid now (.ok ())).1.reconnect_attempts
      = s.reconnect_attempts + 1
    ∧ (handleReconnect s ts1 ts2 pid now (.ok ())).1.status = "streaming"
    ∧ (handleReconnect s ts1 ts2 pid now (.ok ())).1.ffmpeg_process_pid
        = some pid
    ∧ (handleReconnect s ts1 ts2 pid now (.ok ())).1.started_at = some now
    ∧ (handleReconnect s ts1 ts2 pid now (.ok ())).2.1 = .ok ()
    ∧ (handleReconnect s ts1 ts2 pid now (.ok ())).1.log =
        s.log ++ [logEntry ts1 "Attempting reconnection.",
                  logEntry ts2 ("Launching ffmpeg: " ++ cmd)]
    ∧ (handleReconnectPre s ts1).1.status = s.status
    ∧ (handleReconnect s ts1 ts2 pid now (.ok ())).2.2 =
        [("Reconnecting stream " ++ s.name,
          "Health degraded for broadcast " ++ s.broadcast_id ++ ", attempt "
            ++ Nat.repr (s.reconnect_attempts + 1) ++ "."),
         ("Stream " ++ s.name ++ " started",
          "Broadcast " ++ s.broadcast_id ++ " is now live.")] := by
  simp only [handleReconnect, handleReconnectPre, launchFfmpeg, appendLog]
  rw [h]
  refine ⟨rfl, rfl, rfl, rfl, rfl, by simp, by simp, rfl⟩

/-- Claim C1, amended, witness, at the concrete streaming session. -/
theorem reconnect_amended_behavior_witness :
    (handleReconnect exSession "T1" "T2" 42 "T3" (.ok ())).1.reconnect_attempts
      = 1
    ∧ (handleReconnect exSession "T1" "T2" 42 "T3" (.ok ())).1.status
        = "streaming"
    ∧ (handleReconnect exSession "T1" "T2" 42 "T3" (.ok ())).1.ffmpeg_process_pid
        = some 42
    ∧ (handleReconnect exSession "T1" "T2" 42 "T3" (.ok ())).2.1 = .ok () := by
  have h := reconnect_amended_behavior exSession "T1" "T2" 42 "T3"
    ("ffmpeg -stream_loop -1 -re -i video.mp4 -c:v libx264 -preset veryfast "
      ++ "-b:v 4500k -maxrate 4500k -bufsize 9000k -pix_fmt yuv420p -c:a aac "
      ++ "-ar 44100 -b:a 160k -vf scale=-2:1080 -f flv rtmp://a/x")
    (by set_option maxRecDepth 8192 in decide)
  exact ⟨h.1, h.2.1, h.2.2.1, h.2.2.2.2.1⟩

/-! ### Claims about the reconnect-attempt counter lifetime invariant -/

theorem appendLog_ra (s : StreamSession) (ts msg : String) :
    (appendLog s ts msg).reconnect_attempts = s.reconnect_attempts := rfl

theorem launchFfmpeg_ra (s : StreamSession) (ts : String) (pid : Nat)
    (now : String) (gT : Except String Unit) :
    (launchFfmpeg s ts pid now gT).1.reconnect_attempts
      = s.reconnect_attempts := by
  unfold launchFfmpeg
  cases buildFfmpegCommand s.requested.content s.ingestion_url s.requested with
  | none => rfl
  | some cmd =>
      cases gT with
      | error m => rfl
      | ok u => rfl

theorem handleReconnect_ra (s : StreamSession) (ts1 ts2 : String) (pid : Nat)
    (now : String) (gT : Except String Unit) :
    (handleReconnect s ts1 ts2 pid now gT).1.reconnect_attempts
      = s.reconnect_attempts + 1 := by
  show (launchFfmpeg (handleReconnectPre s ts1).1 ts2 pid now gT).1.reconnect_attempts = _
  rw [launchFfmpeg_ra]
  rfl

theorem dictGet_putSession (st : ManagerState) (k q : String)
    (v : StreamSession) :
    dictGet (putSession st k v).sessions q =
      if k = q then some v else dictGet st.sessions q :=
  dictGet_dictInsert st.sessions k q v

theorem putSession_same (st : ManagerState) (k : String)
    (a b : StreamSession) :
    putSession (putSession st k a) k b = putSession st k b := by
  unfold putSession
  simp [dictInsert_same_key]

theorem mono_id_le (st : ManagerState) (bid : String) (s s2 : StreamSession)
    (h1 : dictGet st.sessions bid = some s)
    (h2 : dictGet st.sessions bid = some s2) :
    s.reconnect_attempts ≤ s2.reconnect_attempts := by
  rw [h1] at h2
  injection h2 with h
  rw [h]

theorem mono_insert_le (st : ManagerState) (k : String)
    (old upd : StreamSession)
    (hk : dictGet st.sessions k = some old)
    (hra : old.reconnect_attempts ≤ upd.reconnect_attempts)
    (bid : String) (s s2 : StreamSession)
    (h1 : dictGet st.sessions bid = some s)
    (h2 : dictGet (putSession st k upd).sessions bid = some s2) :
    s.reconnect_attempts ≤ s2.reconnect_attempts := by
  rw [dictGet_putSession] at h2
  by_cases hkb : k = bid
  · subst hkb
    rw [if_pos rfl] at h2
    rw [hk] at h1
    injection h1 with h1e
    injection h2 with h2e
    rw [← h1e, ← h2e]
    exact hra
  · rw [if_neg hkb] at h2
    exact mono_id_le st bid s s2 h1 h2

theorem mono_insert_fresh (st : ManagerState) (k : String) (v : StreamSession)
    (hk : dictGet st.sessions k = none)
    (bid : String) (s s2 : StreamSession)
    (h1 : dictGet st.sessions bid = some s)
    (h2 : dictGet (putSession st k v).sessions bid = some s2) :
    s.reconnect_attempts ≤ s2.reconnect_attempts := by
  rw [dictGet_putSession] at h2
  by_cases hkb : k = bid
  · subst hkb
    rw [hk] at h1
    cases h1
  · rw [if_neg hkb] at h2
    exact mono_id_le st bid s s2 h1 h2

theorem getStatus_fst (st : ManagerState) (broadcast_id : String)
    (gHealth : Except String HealthDict)
    (gMetrics : Except String MetricsDict) :
    (getStatus st broadcast_id gHealth gMetrics).1 = st := by
  unfold getStatus
  repeat first | rfl | split

theorem postLiveChatMessage_fst (st : ManagerState)
    (broadcast_id message : String) (gPost : Except String Unit) :
    (postLiveChatMessage st broadcast_id message gPost).1 = st := by
  unfold postLiveChatMessage
  repeat first | rfl | split

theorem disableChat_fst (st : ManagerState) (broadcast_id : String)
    (gDisable : Except String Unit) :
    (disableChat st broadcast_id gDisable).1 = st := by
  unfold disableChat
  repeat first | rfl | split

theorem scheduleStream_sessions (st : ManagerState) (name : String)
    (request : StreamRequest) :
    (scheduleStream st name request).1.sessions = st.sessions := by
  unfold scheduleStream
  repeat first | rfl | split

theorem stopStream_state_cases (st : ManagerState) (broadcast_id reason ts : String)
    (gT : Except String Unit) :
    (stopStream st broadcast_id reason ts gT).1 = st
    ∨ ∃ old v, dictGet st.sessions broadcast_id = some old
        ∧ old.reconnect_attempts ≤ v.reconnect_attempts
        ∧ (stopStream st broadcast_id reason ts gT).1
            = putSession st broadcast_id v := by
  unfold stopStream
  cases hd : dictGet st.sessions broadcast_id with
  | none => left; rfl
  | some sess =>
      cases gT with
      | error m =>
          right
          exact ⟨sess,
            (if sess.ffmpeg_process_pid.isSome then
              appendLog sess ts "Stopping ffmpeg process." else sess),
            rfl, by by_cases hp : sess.ffmpeg_process_pid.isSome <;>
              simp [hp, appendLog_ra], rfl⟩
      | ok u =>
          right
          exact ⟨sess,
            { (if sess.ffmpeg_process_pid.isSome then
                appendLog sess ts "Stopping ffmpeg process." else sess) with
              status := "stopped" },
            rfl, by by_cases hp : sess.ffmpeg_process_pid.isSome <;>
              simp [hp, appendLog_ra], rfl⟩

theorem updateContent_state_cases (st : ManagerState) (broadcast_id : String)
    (content : StreamContent) (ts : String) :
    (updateContent st broadcast_id content ts).1 = st
    ∨ ∃ old v, dictGet st.sessions broadcast_id = some old
        ∧ old.reconnect_attempts ≤ v.reconnect_attempts
        ∧ (updateContent st broadcast_id content ts).1
            = putSession st broadcast_id v := by
  unfold updateContent
  cases hd : dictGet st.sessions broadcast_id with
  | none => left; rfl
  | some sess =>
      right
      exact ⟨sess,
        appendLog { sess with requested := { sess.requested with content := content } }
          ts "Content updated for next restart.",
        rfl, le_of_eq rfl, rfl⟩

theorem startStream_state_cases (st : ManagerState) (g : GatewayStart)
    (name : String) (request : StreamRequest) (ts ts2 : String) (pid : Nat)
    (now : String) :
    (startStream st g name request ts ts2 pid now).1 = st
    ∨ ∃ bid v, g.create_broadcast = .ok bid
        ∧ v.reconnect_attempts = 0
        ∧ (startStream st g name request ts ts2 pid now).1
            = putSession st bid v := by
  unfold startStream
  split
  · left; rfl
  rename_i bid0 hcb
  split
  · left; rfl
  rename_i info hcs
  split
  · left; rfl
  rename_i u hb
  split
  · left; rfl
  rename_i chat hlc
  split
  · -- no scheduled start time: immediate launch
    rename_i hsst
    dsimp only
    split
    all_goals
      right
      refine ⟨bid0,
        (launchFfmpeg
          (appendLog
            { name := name, broadcast_id := bid0, stream_id := info.stream_id,
              ingestion_url := info.ingestion_address ++ "/" ++ info.stream_name,
              live_chat_id := chat, requested := request, status := "configured" }
            ts "Session configured and bound.")
          ts2 pid now g.transition_live).1,
        hcb, (launchFfmpeg_ra _ _ _ _ _).trans rfl, ?_⟩
    · exact putSession_same st bid0 _ _
    · split
      · exact putSession_same st bid0 _ _
      · exact putSession_same st bid0 _ _
  · -- scheduled: no launch, session registered as configured
    rename_i t hsst
    dsimp only
    split
    all_goals
      right
      exact ⟨bid0,
        appendLog
          { name := name, broadcast_id := bid0, stream_id := info.stream_id,
            ingestion_url := info.ingestion_address ++ "/" ++ info.stream_name,
            live_chat_id := chat, requested := request, status := "configured" }
          ts "Session configured and bound.",
        hcb, rfl, rfl⟩

theorem monitorStep_state_cases (st : ManagerState) (broadcast_id now : String)
    (gHealth : Except String HealthDict) (ts1 rts1 rts2 : String) (pid : Nat)
    (lnow : String) (gT : Except String Unit)
    (gMetrics : Except String MetricsDict) (ts3 : String) :
    (monitorStep st broadcast_id now gHealth ts1 rts1 rts2 pid lnow gT
      gMetrics ts3).1 = st
    ∨ ∃ old v, dictGet st.sessions broadcast_id = some old
        ∧ old.reconnect_attempts ≤ v.reconnect_attempts
        ∧ (monitorStep st broadcast_id now gHealth ts1 rts1 rts2 pid lnow gT
            gMetrics ts3).1 = putSession st broadcast_id v := by
  unfold monitorStep
  cases hd : dictGet st.sessions broadcast_id with
  | none => left; rfl
  | some sess =>
  dsimp only
  by_cases hst : sess.status = "configured" ∨ sess.status = "streaming"
  case neg => rw [if_neg hst]; left; rfl
  rw [if_pos hst]
  cases gHealth with
  | error m =>
      right
      exact ⟨sess, { sess with last_healthcheck := some now }, rfl,
        le_of_eq rfl, rfl⟩
  | ok health =>
  dsimp only
  by_cases hc : health.status ≠ "active" ∨ health.health = "error"
  · rw [if_pos hc]
    rcases hrec : handleReconnect
      (appendLog { sess with last_healthcheck := some now } ts1
        ("Health: " ++ pyStrHealth health)) rts1 rts2 pid lnow gT
      with ⟨rs, rr, rn⟩
    have hle : sess.reconnect_attempts ≤ rs.reconnect_attempts := by
      have h := handleReconnect_ra
        (appendLog { sess with last_healthcheck := some now } ts1
          ("Health: " ++ pyStrHealth health)) rts1 rts2 pid lnow gT
      rw [hrec] at h
      rw [show (rs, rr, rn).1 = rs from rfl] at h
      rw [h]
      exact Nat.le_succ _
    dsimp only
    cases rr with
    | error e => right; exact ⟨sess, rs, rfl, hle, rfl⟩
    | ok u =>
        dsimp only
        cases gMetrics with
        | error m => right; exact ⟨sess, rs, rfl, hle, rfl⟩
        | ok metrics =>
            dsimp only
            by_cases hv : pyTruthy metrics.concurrent_viewers
            · rw [if_pos hv]
              right
              exact ⟨sess,
                appendLog rs ts3
                  ("Viewers: " ++ metrics.concurrent_viewers.getD ""),
                rfl, le_trans hle (le_of_eq rfl), rfl⟩
            · rw [if_neg hv]
              right
              exact ⟨sess, rs, rfl, hle, rfl⟩
  · rw [if_neg hc]
    dsimp only
    cases gMetrics with
    | error m =>
        right
        exact ⟨sess,
          appendLog { sess with last_healthcheck := some now } ts1
            ("Health: " ++ pyStrHealth health),
          rfl, le_of_eq rfl, rfl⟩
    | ok metrics =>
        dsimp only
        by_cases hv : pyTruthy metrics.concurrent_viewers
        · rw [if_pos hv]
          right
          exact ⟨sess,
            appendLog
              (appendLog { sess with last_healthcheck := some now } ts1
                ("Health: " ++ pyStrHealth health)) ts3
              ("Viewers: " ++ metrics.concurrent_viewers.getD ""),
            rfl, le_of_eq rfl, rfl⟩
        · rw [if_neg hv]
          right
          exact ⟨sess,
            appendLog { sess with last_healthcheck := some now } ts1
              ("Health: " ++ pyStrHealth health),
            rfl, le_of_eq rfl, rfl⟩

/-- Claim C9. Sessions are created with a reconnect-attempt counter of 0, and
no operation of the orchestrator or the health monitor ever decreases a
registered session's counter (operations registering a platform-assigned
fresh broadcast id). -/
theorem reconnect_counter_init_and_monotone (st : ManagerState) (op : Op)
    (hf : opFresh st op) :
    (∀ bid s s2, dictGet st.sessions bid = some s →
        dictGet (applyOp st op).sessions bid = some s2 →
        s.reconnect_attempts ≤ s2.reconnect_attempts)
    ∧ (∀ g name request ts ts2 pid now bid s2,
        op = .start g name request ts ts2 pid now →
        g.create_broadcast = .ok bid →
        dictGet (applyOp st op).sessions bid = some s2 →
        s2.reconnect_attempts = 0) := by
  constructor
  · intro bid s s2 h1 h2
    cases op with
    | start g name request ts ts2 pid now =>
        simp only [applyOp] at h2
        rcases startStream_state_cases st g name request ts ts2 pid now with
          hstate | ⟨bid0, v, hcb, hra, hstate⟩
        · rw [hstate] at h2
          exact mono_id_le st bid s s2 h1 h2
        · have hfresh : dictGet st.sessions bid0 = none := hf bid0 hcb
          rw [hstate] at h2
          exact mono_insert_fresh st bid0 v hfresh bid s s2 h1 h2
    | stop broadcast_id reason ts gT =>
        simp only [applyOp] at h2
        rcases stopStream_state_cases st broadcast_id reason ts gT with
          hstate | ⟨old, v, hold, hle, hstate⟩
        · rw [hstate] at h2
          exact mono_id_le st bid s s2 h1 h2
        · rw [hstate] at h2
          exact mono_insert_le st broadcast_id old v hold hle bid s s2 h1 h2
    | schedule name request =>
        simp only [applyOp] at h2
        rw [scheduleStream_sessions] at h2
        exact mono_id_le st bid s s2 h1 h2
    | update broadcast_id content ts =>
        simp only [applyOp] at h2
        rcases updateContent_state_cases st broadcast_id content ts with
          hstate | ⟨old, v, hold, hle, hstate⟩
        · rw [hstate] at h2
          exact mono_id_le st bid s s2 h1 h2
        · rw [hstate] at h2
          exact mono_insert_le st broadcast_id old v hold hle bid s s2 h1 h2
    | status broadcast_id gHealth gMetrics =>
        simp only [applyOp] at h2
        rw [getStatus_fst] at h2
        exact mono_id_le st bid s s2 h1 h2
    | monitor broadcast_id now gHealth ts1 rts1 rts2 pid lnow gT gMetrics ts3 =>
        simp only [applyOp] at h2
        rcases monitorStep_state_cases st broadcast_id now gHealth ts1 rts1
          rts2 pid lnow gT gMetrics ts3 with
          hstate | ⟨old, v, hold, hle, hstate⟩
        · rw [hstate] at h2
          exact mono_id_le st bid s s2 h1 h2
        · rw [hstate] at h2
          exact mono_insert_le st broadcast_id old v hold hle bid s s2 h1 h2
    | postChat broadcast_id message gPost =>
        simp only [applyOp] at h2
        rw [postLiveChatMessage_fst] at h2
        exact mono_id_le st bid s s2 h1 h2
    | chatOff broadcast_id gDisable =>
        simp only [applyOp] at h2
        rw [disableChat_fst] at h2
        exact mono_id_le st bid s s2 h1 h2
  · intro g name request ts ts2 pid now bid s2 hop hcb h2
    subst hop
    simp only [applyOp] at h2
    rcases startStream_state_cases st g name request ts ts2 pid now with
      hstate | ⟨bid0, v, hcb0, hra, hstate⟩
    · rw [hstate] at h2
      have hfresh : dictGet st.sessions bid = none := hf bid hcb
      rw [hfresh] at h2
      cases h2
    · rw [hcb] at hcb0
      injection hcb0 with he
      subst he
      rw [hstate, dictGet_putSession, if_pos rfl] at h2
      injection h2 with h2e
      rw [← h2e]
      exact hra

/-- Claim C9, witness: stopping the concrete session keeps the counter at 0. -/
theorem reconnect_counter_init_and_monotone_witness :
    dictGet (applyOp exState (.stop "B1" "manual stop" "T" (.ok ()))).sessions
      "B1" = some exSessionStopped
    ∧ exSession.reconnect_attempts ≤ exSessionStopped.reconnect_attempts := by
  have hmono := (reconnect_counter_init_and_monotone exState
    (.stop "B1" "manual stop" "T" (.ok ())) (by trivial)).1
  have hget : dictGet
      (applyOp exState (.stop "B1" "manual stop" "T" (.ok ()))).sessions "B1"
      = some exSessionStopped := by decide
  exact ⟨hget, hmono "B1" exSession exSessionStopped (by decide) hget⟩

end StreamingBot
